import Mathlib

/-!
Verification of the cht.sh MCP server (src/index.ts): a shallow embedding of
the request dispatcher, envelope validation, and upstream URL construction.

JSON values parsed from an input line are modelled by `Json`; a JS object is a
field list with unique keys, as JSON.parse produces. Property access on a
missing key yields `none`, modelling the JS value undefined.
-/

namespace ChtSh

/-- A JSON value as produced by JSON.parse. Numbers are modelled as integers
(every number appearing in the protocol paths is integral). -/
inductive Json where
  | null : Json
  | bool (b : Bool) : Json
  | num (n : Int) : Json
  | str (s : String) : Json
  | arr (elems : List Json) : Json
  | obj (fields : List (String × Json)) : Json

/-- JS truthiness of a JSON value: null, false, 0 and the empty string are
falsy; objects and arrays are always truthy. -/
def Json.truthy : Json → Bool
  | .null => false
  | .bool b => b
  | .num n => n != 0
  | .str s => s != ""
  | .arr _ => true
  | .obj _ => true

/-- First binding of a key in a field list (keys are unique after JSON.parse). -/
def lookupField : List (String × Json) → String → Option Json
  | [], _ => none
  | (k, v) :: rest, key => if k = key then some v else lookupField rest key

/-- JS property access `v[key]` on a parsed value: `none` models undefined.
Non-object values have no own JSON properties. Access on `Json.null` throws in
JS; the dispatcher definitions below branch on null before calling this. -/
def jsGet : Json → String → Option Json
  | .obj fields, key => lookupField fields key
  | _, _ => none

/-- Property access through a possibly-undefined value, with undefined
propagating (used where the source reads `params.name` after a truthiness
guard on `params`). -/
def jsGetO : Option Json → String → Option Json
  | some v, key => jsGet v key
  | none, _ => none

/-- Truthiness of a possibly-undefined value: undefined is falsy. -/
def truthyO : Option Json → Bool
  | some v => v.truthy
  | none => false

/-- The JS expression `v || d`: `v` when truthy, else the default `d`.
The source uses it as `request.id || "0"` and `options || []`. -/
def jsOrDefault (v : Option Json) (d : Json) : Json :=
  match v with
  | some x => if x.truthy then x else d
  | none => d

mutual

/-- JS template-literal stringification of a value, as in
a template string interpolation of request.method. -/
def jsString : Json → String
  | .null => "null"
  | .bool b => cond b "true" "false"
  | .num n => toString n
  | .str s => s
  | .arr xs => jsArrJoin xs
  | .obj _ => "[object Object]"

/-- Array stringification: elements joined by commas, a null element printing
as the empty string (JS Array.prototype.join). -/
def jsArrJoin : List Json → String
  | [] => ""
  | [Json.null] => ""
  | [x] => jsString x
  | Json.null :: y :: rest => "," ++ jsArrJoin (y :: rest)
  | x :: y :: rest => jsString x ++ "," ++ jsArrJoin (y :: rest)

end

/-- Template stringification where the value may be undefined. -/
def jsTemplate : Option Json → String
  | none => "undefined"
  | some v => jsString v

/-- The error object of the MCPResponse interface: code, message, optional data. -/
structure ErrorObject where
  code : Int
  message : String
  data : Option Json

/-- The MCPResponse interface of src/index.ts: id, optional result, optional
error, and the jsonrpc marker. Both result and error are optional in the type;
that exactly one is ever populated is a theorem, not a typing artifact. -/
structure MCPResponse where
  id : Json
  jsonrpc : String
  result : Option Json
  error : Option ErrorObject

/-- One invocation of fetchFromChtSh recorded by the dispatcher: the raw query
value, the raw language value (undefined when absent) and the options value
after the `options or empty array` defaulting. -/
structure FetchCall where
  query : Json
  language : Option Json
  options : Json

/-- The outcome of the awaited fetchFromChtSh call: the response body on
success, or the message of the Error that the rejected promise carries. -/
abbrev FetchOracle := Json → Option Json → Json → Except String String

/-- What one input line produces: the response lines written to stdout, the
requests handed to handleRequest, and the upstream fetch invocations. -/
structure LineOutcome where
  outputs : List MCPResponse
  dispatched : List Json
  fetchCalls : List FetchCall

/-- A response with only the error branch populated (data absent). -/
def errorResponse (id : Json) (code : Int) (message : String) : MCPResponse :=
  { id := id, jsonrpc := "2.0", result := none,
    error := some { code := code, message := message, data := none } }

/-- A response with only the result branch populated. -/
def resultResponse (id : Json) (r : Json) : MCPResponse :=
  { id := id, jsonrpc := "2.0", result := some r, error := none }

/-- The result payload of the initialize branch (src/index.ts lines 109 to 120). -/
def initResult (version : String) : Json :=
  Json.obj [("protocolVersion", Json.str "2024-03-26"),
            ("capabilities", Json.obj []),
            ("serverInfo", Json.obj [("name", Json.str "CheatSheet"),
                                     ("version", Json.str version)])]

/-- The static tool descriptor chtShTool (src/index.ts lines 73 to 97). -/
def chtShTool : Json :=
  Json.obj [
    ("name", Json.str "cht_sh"),
    ("description", Json.str "Look up programming language cheat sheets, examples and documentation from cht.sh"),
    ("inputSchema", Json.obj [
      ("type", Json.str "object"),
      ("properties", Json.obj [
        ("language", Json.obj [("type", Json.str "string"),
          ("description", Json.str "Programming language (e.g., javascript, python, go)")]),
        ("query", Json.obj [("type", Json.str "string"),
          ("description", Json.str "Query or topic to search for (e.g., map, regex, sort)")]),
        ("options", Json.obj [("type", Json.str "array"),
          ("items", Json.obj [("type", Json.str "string")]),
          ("description", Json.str "Optional parameters (e.g., 'T' for text-only, 'q' for quiet)")])]),
      ("required", Json.arr [Json.str "query"])])]

/-- The result payload of the tools/list branch. -/
def toolsListResult : Json :=
  Json.obj [("tools", Json.arr [chtShTool])]

/-- The result payload of the ping branch: fixed status and the current time. -/
def pingResult (now : Int) : Json :=
  Json.obj [("status", Json.str "ok"), ("timestamp", Json.num now)]

/-- The result payload wrapping a fetched body as one text content block. -/
def contentResult (body : String) : Json :=
  Json.obj [("content", Json.arr [Json.obj [("type", Json.str "text"),
                                            ("text", Json.str body)]])]

/-- The TypeError message raised when destructuring `params.arguments` and the
value is undefined. The wording models the V8 runtime text; only the resulting
error code (-32000) is part of the protocol contract. -/
def destructureUndefinedMessage : String :=
  "Cannot destructure property 'language' of 'params.arguments' as it is undefined."

/-- The TypeError message raised when destructuring `params.arguments` and the
value is null. Runtime-specific wording, as for the undefined case. -/
def destructureNullMessage : String :=
  "Cannot destructure property 'language' of 'params.arguments' as it is null."

/-- The TypeError message raised when reading `.jsonrpc` off a parsed null.
Runtime-specific wording; only the resulting code (-32603) matters. -/
def nullAccessMessage : String :=
  "Cannot read properties of null (reading 'jsonrpc')"

/-- The callTool branch of handleRequest (src/index.ts lines 155 to 226),
with the try/catch flattened: the `Missing parameters` throw and the
destructuring TypeError land in the catch, which answers with code -32000. -/
def handleCallTool (fetch : FetchOracle) (responseId : Json) (paramsOpt : Option Json) :
    Option MCPResponse × List FetchCall :=
  if truthyO paramsOpt = false then
    (some (errorResponse responseId (-32000) "Missing parameters"), [])
  else
    match jsGetO paramsOpt "name" with
    | some (Json.str s) =>
      if s = "cht_sh" then
        match jsGetO paramsOpt "arguments" with
        | none =>
          (some (errorResponse responseId (-32000) destructureUndefinedMessage), [])
        | some Json.null =>
          (some (errorResponse responseId (-32000) destructureNullMessage), [])
        | some args =>
          let language := jsGet args "language"
          let query := jsGet args "query"
          let options := jsGet args "options"
          match query with
          | some qv =>
            if qv.truthy then
              let optionsArg := jsOrDefault options (Json.arr [])
              match fetch qv language optionsArg with
              | Except.ok body =>
                (some (resultResponse responseId (contentResult body)),
                 [{ query := qv, language := language, options := optionsArg }])
              | Except.error msg =>
                (some (errorResponse responseId (-32000) msg),
                 [{ query := qv, language := language, options := optionsArg }])
            else
              (some (errorResponse responseId (-32602) "Invalid params: query is required"), [])
          | none =>
            (some (errorResponse responseId (-32602) "Invalid params: query is required"), [])
      else
        (some (errorResponse responseId (-32601) ("Tool not found: " ++ s)), [])
    | other =>
      (some (errorResponse responseId (-32601) ("Tool not found: " ++ jsTemplate other)), [])

/-- handleRequest (src/index.ts lines 100 to 238): compute the response id via
`request.id or the sentinel`, then route on the method string. The version
string (imported from package.json in the source) and the Date.now() value are
parameters of the embedding. -/
def handleRequest (version : String) (now : Int) (fetch : FetchOracle) (request : Json) :
    Option MCPResponse × List FetchCall :=
  let responseId := jsOrDefault (jsGet request "id") (Json.str "0")
  match jsGet request "method" with
  | some (Json.str "initialize") => (some (resultResponse responseId (initResult version)), [])
  | some (Json.str "initialized") => (none, [])
  | some (Json.str "tools/list") => (some (resultResponse responseId toolsListResult), [])
  | some (Json.str "ping") => (some (resultResponse responseId (pingResult now)), [])
  | some (Json.str "callTool") => handleCallTool fetch responseId (jsGet request "params")
  | m => (some (errorResponse responseId (-32601) ("Method not found: " ++ jsTemplate m)), [])

/-- The envelope validation of the line handler (src/index.ts line 267):
`request.jsonrpc` strictly equals the marker and `request.method` is truthy. -/
def validEnvelope (j : Json) : Bool :=
  (match jsGet j "jsonrpc" with
   | some (Json.str s) => s = "2.0"
   | _ => false)
  && truthyO (jsGet j "method")

/-- The per-line handler (src/index.ts lines 244 to 303). Its input is the
outcome of JSON.parse on the line: `none` when the parse threw, `some j`
otherwise. A parsed null makes the validation read `.jsonrpc` off null, which
throws and is answered by the outer catch with code -32603. -/
def processLine (version : String) (now : Int) (fetch : FetchOracle) :
    Option Json → LineOutcome
  | none =>
    { outputs := [errorResponse (Json.str "0") (-32700) "Parse error: Invalid JSON"],
      dispatched := [], fetchCalls := [] }
  | some Json.null =>
    { outputs := [{ id := Json.str "0", jsonrpc := "2.0", result := none,
                    error := some { code := -32603, message := "Internal error",
                                    data := some (Json.str nullAccessMessage) } }],
      dispatched := [], fetchCalls := [] }
  | some j =>
    if validEnvelope j then
      let hr := handleRequest version now fetch j
      { outputs := hr.1.toList, dispatched := [j], fetchCalls := hr.2 }
    else
      { outputs := [errorResponse (jsOrDefault (jsGet j "id") (Json.str "0"))
          (-32600) "Invalid Request: Not a valid JSON-RPC 2.0 request"],
        dispatched := [], fetchCalls := [] }

/-- The fixed upstream base endpoint. -/
def CHT_SH_BASE_URL : String := "https://cht.sh/"

/-- The URL that fetchFromChtSh builds before issuing the GET (src/index.ts
lines 41 to 53). The `if (language)` test is JS truthiness, so an empty
language string is skipped exactly like an absent one. No escaping is applied
to any segment. -/
def fetchFromChtShUrl (query : String) (language : Option String) (options : List String) : String :=
  let url := CHT_SH_BASE_URL
  let url := match language with
    | some l => if l = "" then url else url ++ l ++ "/"
    | none => url
  let url := url ++ query
  if options.length > 0 then url ++ "?" ++ String.intercalate "&" options else url

/-- The URL formula as the specification words it: base endpoint, then
language followed by a slash whenever a language is provided, then the query,
then a question mark and the ampersand-joined options when the option list is
non-empty. -/
def specFetchUrl (query : String) (language : Option String) (options : List String) : String :=
  CHT_SH_BASE_URL
    ++ (match language with | some l => l ++ "/" | none => "")
    ++ query
    ++ (if options = [] then "" else "?" ++ String.intercalate "&" options)

/-- The URL formula amended at the one point the code forces: the language
segment is appended only when the provided language is non-empty (the JS
truthiness check on the string). -/
def specFetchUrlAmended (query : String) (language : Option String) (options : List String) : String :=
  CHT_SH_BASE_URL
    ++ (match language with
        | some l => if l = "" then "" else l ++ "/"
        | none => "")
    ++ query
    ++ (if options = [] then "" else "?" ++ String.intercalate "&" options)

/-- A fetch oracle for concrete evaluations: the upstream is unreachable and
every call rejects. -/
def noFetch : FetchOracle := fun _ _ _ => Except.error "Failed to fetch from cht.sh: network unreachable"

/-- A response carries the marker and exactly one of result or error. -/
def wellFormedResp (r : MCPResponse) : Prop :=
  r.jsonrpc = "2.0" ∧ ((∃ x, r.result = some x) ↔ r.error = none)

/-- A value with a readable own property is an object, hence truthy. -/
theorem truthy_of_jsGet (p : Json) (k : String) (v : Json)
    (h : jsGet p k = some v) : p.truthy = true := by
  cases p <;> simp_all [jsGet, Json.truthy]

/-- Every response that handleCallTool returns uses the response id it was
handed. -/
theorem handleCallTool_id (fetch : FetchOracle) (rid : Json) (p : Option Json) :
    ∀ r ∈ (handleCallTool fetch rid p).1, r.id = rid := by
  intro r hr
  unfold handleCallTool at hr
  repeat' (first | (split at hr) | (dsimp only [] at hr))
  all_goals simp only [Option.mem_def, Option.some.injEq] at hr
  all_goals subst hr
  all_goals rfl

/-- Every response that handleRequest returns uses the request id when truthy
and the sentinel string "0" otherwise. -/
theorem handleRequest_id (version : String) (now : Int) (fetch : FetchOracle)
    (req : Json) :
    ∀ r ∈ (handleRequest version now fetch req).1,
      r.id = jsOrDefault (jsGet req "id") (Json.str "0") := by
  intro r hr
  unfold handleRequest at hr
  dsimp only [] at hr
  split at hr
  all_goals
    first
      | exact handleCallTool_id _ _ _ r hr
      | (simp only [Option.mem_def] at hr; exact Option.noConfusion hr)
      | (simp only [Option.mem_def, Option.some.injEq] at hr; subst hr; rfl)

/-- errorResponse is well formed. -/
theorem wellFormed_errorResponse (i : Json) (c : Int) (m : String) :
    wellFormedResp (errorResponse i c m) := by
  simp [wellFormedResp, errorResponse]

/-- resultResponse is well formed. -/
theorem wellFormed_resultResponse (i : Json) (r : Json) :
    wellFormedResp (resultResponse i r) := by
  simp [wellFormedResp, resultResponse]

/-- Every response handleCallTool returns is well formed. -/
theorem handleCallTool_wf (fetch : FetchOracle) (rid : Json) (p : Option Json) :
    ∀ r ∈ (handleCallTool fetch rid p).1, wellFormedResp r := by
  intro r hr
  unfold handleCallTool at hr
  repeat' (first | (split at hr) | (dsimp only [] at hr))
  all_goals simp only [Option.mem_def, Option.some.injEq] at hr
  all_goals subst hr
  all_goals
    first
      | exact wellFormed_errorResponse _ _ _
      | exact wellFormed_resultResponse _ _

/-- Every response handleRequest returns is well formed. -/
theorem handleRequest_wf (version : String) (now : Int) (fetch : FetchOracle)
    (req : Json) :
    ∀ r ∈ (handleRequest version now fetch req).1, wellFormedResp r := by
  intro r hr
  unfold handleRequest at hr
  dsimp only [] at hr
  split at hr
  all_goals
    first
      | exact handleCallTool_wf _ _ _ r hr
      | (simp only [Option.mem_def] at hr; exact Option.noConfusion hr)
      | (simp only [Option.mem_def, Option.some.injEq] at hr; subst hr;
         first
           | exact wellFormed_errorResponse _ _ _
           | exact wellFormed_resultResponse _ _)

/-- Claim C1: for every input line whose parsed envelope has method
initialized, the dispatcher returns the absent-response variant (none) and the
system writes zero output lines, regardless of whether an id is present. -/
theorem initialized_notification_no_output (version : String) (now : Int)
    (fetch : FetchOracle) (j : Json)
    (hrpc : jsGet j "jsonrpc" = some (Json.str "2.0"))
    (hm : jsGet j "method" = some (Json.str "initialized")) :
    handleRequest version now fetch j = (none, []) ∧
    (processLine version now fetch (some j)).outputs = [] := by
  have hhr : handleRequest version now fetch j = (none, []) := by
    simp [handleRequest, hm]
  refine ⟨hhr, ?_⟩
  have hv : validEnvelope j = true := by
    simp [validEnvelope, hrpc, hm, truthyO, Json.truthy]
  cases j with
  | obj fields => simp [processLine, hv, hhr]
  | null => simp [jsGet] at hrpc
  | bool b => simp [jsGet] at hrpc
  | num n => simp [jsGet] at hrpc
  | str s => simp [jsGet] at hrpc
  | arr xs => simp [jsGet] at hrpc

/-- Witness for C1 at a concrete envelope carrying an id. -/
theorem initialized_notification_no_output_check :
    jsGet (Json.obj [("jsonrpc", Json.str "2.0"), ("id", Json.num 3),
        ("method", Json.str "initialized")]) "jsonrpc" = some (Json.str "2.0") ∧
    jsGet (Json.obj [("jsonrpc", Json.str "2.0"), ("id", Json.num 3),
        ("method", Json.str "initialized")]) "method" = some (Json.str "initialized") ∧
    (handleRequest "1.0.0" 42 noFetch (Json.obj [("jsonrpc", Json.str "2.0"),
        ("id", Json.num 3), ("method", Json.str "initialized")]) = (none, []) ∧
     (processLine "1.0.0" 42 noFetch (some (Json.obj [("jsonrpc", Json.str "2.0"),
        ("id", Json.num 3), ("method", Json.str "initialized")]))).outputs = []) :=
  ⟨rfl, rfl, initialized_notification_no_output "1.0.0" 42 noFetch _ rfl rfl⟩

/-- Claim C2: a non-parseable input line produces exactly one error response,
with code -32700 and the sentinel id "0", and the line is never dispatched to
any method handler. -/
theorem parse_failure_single_error (version : String) (now : Int) (fetch : FetchOracle) :
    processLine version now fetch none =
      { outputs := [{ id := Json.str "0", jsonrpc := "2.0", result := none,
                      error := some { code := -32700,
                                      message := "Parse error: Invalid JSON",
                                      data := none } }],
        dispatched := [], fetchCalls := [] } := rfl

/-- Claim C3: a parsed envelope whose jsonrpc marker is not the string "2.0",
or whose method field is absent, is answered by exactly one error response
with code -32600 and the truthy-id-or-sentinel id, and is never dispatched to
method routing. -/
theorem invalid_envelope_single_error (version : String) (now : Int)
    (fetch : FetchOracle) (fields : List (String × Json))
    (h : jsGet (Json.obj fields) "jsonrpc" ≠ some (Json.str "2.0") ∨
         jsGet (Json.obj fields) "method" = none) :
    processLine version now fetch (some (Json.obj fields)) =
      { outputs := [{ id := jsOrDefault (jsGet (Json.obj fields) "id") (Json.str "0"),
                      jsonrpc := "2.0", result := none,
                      error := some { code := -32600,
                                      message := "Invalid Request: Not a valid JSON-RPC 2.0 request",
                                      data := none } }],
        dispatched := [], fetchCalls := [] } := by
  have hv : validEnvelope (Json.obj fields) = false := by
    unfold validEnvelope
    rcases h with h | h
    · cases hj : jsGet (Json.obj fields) "jsonrpc" with
      | none => simp
      | some v =>
        cases v <;> simp_all
    · simp [h, truthyO]
  simp [processLine, hv, errorResponse]

/-- Witness for C3 at a concrete envelope missing the jsonrpc marker. -/
theorem invalid_envelope_single_error_check :
    (jsGet (Json.obj [("id", Json.num 5), ("method", Json.str "ping")]) "jsonrpc"
        ≠ some (Json.str "2.0") ∨
     jsGet (Json.obj [("id", Json.num 5), ("method", Json.str "ping")]) "method" = none) ∧
    processLine "1.0.0" 42 noFetch
        (some (Json.obj [("id", Json.num 5), ("method", Json.str "ping")])) =
      { outputs := [{ id := jsOrDefault (jsGet (Json.obj [("id", Json.num 5),
                        ("method", Json.str "ping")]) "id") (Json.str "0"),
                      jsonrpc := "2.0", result := none,
                      error := some { code := -32600,
                                      message := "Invalid Request: Not a valid JSON-RPC 2.0 request",
                                      data := none } }],
        dispatched := [], fetchCalls := [] } :=
  ⟨Or.inl (by simp [jsGet, lookupField]),
   invalid_envelope_single_error "1.0.0" 42 noFetch _
     (Or.inl (by simp [jsGet, lookupField]))⟩

/-- Claim C4: a callTool request for the known tool whose arguments carry an
empty or missing query is answered with the invalid-params code -32602 and the
upstream fetch is never invoked (the recorded call list is empty). The tool
name hypothesis reflects the sub-dispatch order: the name check of the source
precedes the query check. -/
theorem callTool_blank_query_invalid_params (version : String) (now : Int)
    (fetch : FetchOracle) (req params args : Json)
    (hm : jsGet req "method" = some (Json.str "callTool"))
    (hp : jsGet req "params" = some params)
    (hname : jsGet params "name" = some (Json.str "cht_sh"))
    (hargs : jsGet params "arguments" = some args)
    (hnn : args ≠ Json.null)
    (hq : jsGet args "query" = none ∨ jsGet args "query" = some (Json.str "")) :
    handleRequest version now fetch req =
      (some (errorResponse (jsOrDefault (jsGet req "id") (Json.str "0"))
        (-32602) "Invalid params: query is required"), []) := by
  have htr : params.truthy = true := truthy_of_jsGet _ _ _ hname
  have hred : handleRequest version now fetch req =
      handleCallTool fetch (jsOrDefault (jsGet req "id") (Json.str "0")) (some params) := by
    simp [handleRequest, hm, hp]
  rw [hred]
  unfold handleCallTool
  simp only [jsGetO, truthyO, htr, hname, hargs]
  cases args with
  | null => exact absurd rfl hnn
  | obj afields => rcases hq with hq | hq <;> simp [hq, Json.truthy]
  | bool b => rcases hq with hq | hq <;> simp_all [jsGet]
  | num n => rcases hq with hq | hq <;> simp_all [jsGet]
  | str s => rcases hq with hq | hq <;> simp_all [jsGet]
  | arr xs => rcases hq with hq | hq <;> simp_all [jsGet]

/-- Witness for C4 at a concrete callTool request with an empty query. -/
theorem callTool_blank_query_invalid_params_check :
    jsGet (Json.obj [("jsonrpc", Json.str "2.0"), ("id", Json.num 7),
        ("method", Json.str "callTool"),
        ("params", Json.obj [("name", Json.str "cht_sh"),
          ("arguments", Json.obj [("query", Json.str "")])])]) "method"
      = some (Json.str "callTool") ∧
    handleRequest "1.0.0" 42 noFetch
        (Json.obj [("jsonrpc", Json.str "2.0"), ("id", Json.num 7),
          ("method", Json.str "callTool"),
          ("params", Json.obj [("name", Json.str "cht_sh"),
            ("arguments", Json.obj [("query", Json.str "")])])]) =
      (some (errorResponse (Json.num 7) (-32602) "Invalid params: query is required"), []) :=
  ⟨rfl,
   callTool_blank_query_invalid_params "1.0.0" 42 noFetch _ _ _
     rfl rfl rfl rfl (fun h => Json.noConfusion h) (Or.inr rfl)⟩

/-- Claim C5: a callTool request with params present and a tool name other
than cht_sh is answered with code -32601 and a message naming the requested
tool, and the upstream fetch is never invoked. -/
theorem callTool_unknown_tool_not_found (version : String) (now : Int)
    (fetch : FetchOracle) (req params : Json) (s : String)
    (hm : jsGet req "method" = some (Json.str "callTool"))
    (hp : jsGet req "params" = some params)
    (hname : jsGet params "name" = some (Json.str s))
    (hs : s ≠ "cht_sh") :
    handleRequest version now fetch req =
      (some (errorResponse (jsOrDefault (jsGet req "id") (Json.str "0"))
        (-32601) ("Tool not found: " ++ s)), []) := by
  have htr : params.truthy = true := truthy_of_jsGet _ _ _ hname
  have hred : handleRequest version now fetch req =
      handleCallTool fetch (jsOrDefault (jsGet req "id") (Json.str "0")) (some params) := by
    simp [handleRequest, hm, hp]
  rw [hred]
  unfold handleCallTool
  simp only [jsGetO, truthyO, htr, hname]
  simp [hs]

/-- Witness for C5 at a concrete callTool request naming an unknown tool. -/
theorem callTool_unknown_tool_not_found_check :
    ("weather" : String) ≠ "cht_sh" ∧
    handleRequest "1.0.0" 42 noFetch
        (Json.obj [("jsonrpc", Json.str "2.0"), ("id", Json.num 9),
          ("method", Json.str "callTool"),
          ("params", Json.obj [("name", Json.str "weather"),
            ("arguments", Json.obj [("query", Json.str "map")])])]) =
      (some (errorResponse (Json.num 9) (-32601) ("Tool not found: " ++ "weather")), []) :=
  ⟨by decide,
   callTool_unknown_tool_not_found "1.0.0" 42 noFetch _ _ "weather"
     rfl rfl rfl (by decide)⟩

/-- Claim C9: a callTool request for the known tool whose params lack an
arguments object is answered with the server-error code -32000 (the
destructuring throw lands in the generic catch), not with -32602. -/
theorem callTool_missing_arguments_server_error (version : String) (now : Int)
    (fetch : FetchOracle) (req params : Json)
    (hm : jsGet req "method" = some (Json.str "callTool"))
    (hp : jsGet req "params" = some params)
    (hname : jsGet params "name" = some (Json.str "cht_sh"))
    (hargs : jsGet params "arguments" = none) :
    handleRequest version now fetch req =
      (some (errorResponse (jsOrDefault (jsGet req "id") (Json.str "0"))
        (-32000) destructureUndefinedMessage), []) ∧
    (-32000 : Int) ≠ -32602 := by
  have htr : params.truthy = true := truthy_of_jsGet _ _ _ hname
  have hred : handleRequest version now fetch req =
      handleCallTool fetch (jsOrDefault (jsGet req "id") (Json.str "0")) (some params) := by
    simp [handleRequest, hm, hp]
  refine ⟨?_, by decide⟩
  rw [hred]
  unfold handleCallTool
  simp [jsGetO, truthyO, htr, hname, hargs]

/-- Witness for C9 at a concrete callTool request with no arguments field. -/
theorem callTool_missing_arguments_server_error_check :
    jsGet (Json.obj [("name", Json.str "cht_sh")]) "arguments" = none ∧
    (handleRequest "1.0.0" 42 noFetch
        (Json.obj [("jsonrpc", Json.str "2.0"), ("id", Json.num 11),
          ("method", Json.str "callTool"),
          ("params", Json.obj [("name", Json.str "cht_sh")])]) =
      (some (errorResponse (Json.num 11) (-32000) destructureUndefinedMessage), []) ∧
     (-32000 : Int) ≠ -32602) :=
  ⟨rfl,
   callTool_missing_arguments_server_error "1.0.0" 42 noFetch _ _
     rfl rfl rfl rfl⟩

/-- Claim C6 as stated is false on the code: a ping request carrying the
numeric id 0 is answered with the sentinel string "0" instead of its own id,
because the response id is taken through the JS truthiness default. -/
theorem id_echo_claim_fails_on_zero_id :
    jsGet (Json.obj [("jsonrpc", Json.str "2.0"), ("id", Json.num 0),
        ("method", Json.str "ping")]) "id" = some (Json.num 0) ∧
    (handleRequest "1.0.0" 42 noFetch (Json.obj [("jsonrpc", Json.str "2.0"),
        ("id", Json.num 0), ("method", Json.str "ping")])).1 =
      some (resultResponse (Json.str "0") (pingResult 42)) ∧
    Json.str "0" ≠ Json.num 0 :=
  ⟨rfl, rfl, fun h => Json.noConfusion h⟩

/-- Claim C6 amended: for every request handleRequest answers, the response id
equals the request id when the request carries a truthy id, and is the
sentinel string "0" when the id is absent or falsy (0, the empty string,
false or null). -/
theorem response_id_echoes_truthy_id (version : String) (now : Int)
    (fetch : FetchOracle) (req : Json) (resp : MCPResponse)
    (h : resp ∈ (handleRequest version now fetch req).1) :
    resp.id = match jsGet req "id" with
              | some v => if v.truthy then v else Json.str "0"
              | none => Json.str "0" :=
  handleRequest_id version now fetch req resp h

/-- Witness for C6 amended at a concrete ping request with a truthy id. -/
theorem response_id_echoes_truthy_id_check :
    (resultResponse (Json.num 3) (pingResult 42)) ∈
      (handleRequest "1.0.0" 42 noFetch (Json.obj [("jsonrpc", Json.str "2.0"),
        ("id", Json.num 3), ("method", Json.str "ping")])).1 ∧
    (resultResponse (Json.num 3) (pingResult 42)).id =
      match jsGet (Json.obj [("jsonrpc", Json.str "2.0"), ("id", Json.num 3),
          ("method", Json.str "ping")]) "id" with
      | some v => if v.truthy then v else Json.str "0"
      | none => Json.str "0" :=
  ⟨rfl, response_id_echoes_truthy_id "1.0.0" 42 noFetch
    (Json.obj [("jsonrpc", Json.str "2.0"), ("id", Json.num 3),
      ("method", Json.str "ping")])
    (resultResponse (Json.num 3) (pingResult 42)) rfl⟩

/-- Claim C7: every response the system emits, on any line-handling path,
carries the jsonrpc marker "2.0" and exactly one of a result payload or an
error object, never both and never neither. -/
theorem responses_well_formed (version : String) (now : Int) (fetch : FetchOracle)
    (line : Option Json) (r : MCPResponse)
    (hmem : r ∈ (processLine version now fetch line).outputs) :
    r.jsonrpc = "2.0" ∧ ((∃ x, r.result = some x) ↔ r.error = none) := by
  have key : wellFormedResp r := by
    rcases line with _ | j
    · simp only [processLine, List.mem_singleton] at hmem
      subst hmem
      constructor <;> simp [errorResponse]
    · cases j with
      | null =>
        simp only [processLine, List.mem_singleton] at hmem
        subst hmem
        constructor <;> simp
      | bool b =>
        simp only [processLine] at hmem
        split at hmem
        · rw [Option.mem_toList] at hmem
          exact handleRequest_wf _ _ _ _ r hmem
        · simp only [List.mem_singleton] at hmem
          subst hmem
          exact wellFormed_errorResponse _ _ _
      | num n =>
        simp only [processLine] at hmem
        split at hmem
        · rw [Option.mem_toList] at hmem
          exact handleRequest_wf _ _ _ _ r hmem
        · simp only [List.mem_singleton] at hmem
          subst hmem
          exact wellFormed_errorResponse _ _ _
      | str s =>
        simp only [processLine] at hmem
        split at hmem
        · rw [Option.mem_toList] at hmem
          exact handleRequest_wf _ _ _ _ r hmem
        · simp only [List.mem_singleton] at hmem
          subst hmem
          exact wellFormed_errorResponse _ _ _
      | arr xs =>
        simp only [processLine] at hmem
        split at hmem
        · rw [Option.mem_toList] at hmem
          exact handleRequest_wf _ _ _ _ r hmem
        · simp only [List.mem_singleton] at hmem
          subst hmem
          exact wellFormed_errorResponse _ _ _
      | obj fields =>
        simp only [processLine] at hmem
        split at hmem
        · rw [Option.mem_toList] at hmem
          exact handleRequest_wf _ _ _ _ r hmem
        · simp only [List.mem_singleton] at hmem
          subst hmem
          exact wellFormed_errorResponse _ _ _
  exact key

/-- Witness for C7 at the parse-error response of an unparseable line. -/
theorem responses_well_formed_check :
    (errorResponse (Json.str "0") (-32700) "Parse error: Invalid JSON") ∈
      (processLine "1.0.0" 42 noFetch none).outputs ∧
    ((errorResponse (Json.str "0") (-32700) "Parse error: Invalid JSON").jsonrpc = "2.0" ∧
     ((∃ x, (errorResponse (Json.str "0") (-32700) "Parse error: Invalid JSON").result = some x) ↔
      (errorResponse (Json.str "0") (-32700) "Parse error: Invalid JSON").error = none)) :=
  ⟨List.mem_singleton.mpr rfl,
   responses_well_formed "1.0.0" 42 noFetch none _ (List.mem_singleton.mpr rfl)⟩

/-- Claim C8 as stated is false at a provided empty language: the code treats
the empty string as falsy and omits the language segment, while the stated
formula appends language and slash whenever a language is provided. -/
theorem url_spec_formula_fails_on_empty_language :
    fetchFromChtShUrl "map" (some "") [] ≠ specFetchUrl "map" (some "") [] := by
  decide

/-- Claim C8 amended: the fetch URL equals the stated concatenation formula
with the language segment appended only for a provided non-empty language; no
escaping is applied to any segment. -/
theorem url_matches_amended_formula (query : String) (language : Option String)
    (options : List String) :
    fetchFromChtShUrl query language options = specFetchUrlAmended query language options := by
  unfold fetchFromChtShUrl specFetchUrlAmended
  cases language with
  | none =>
    cases options <;>
      simp [String.append_assoc, String.append_empty, String.empty_append]
  | some l =>
    by_cases hl : l = "" <;> cases options <;>
      simp [hl, String.append_assoc, String.append_empty, String.empty_append]

/-- Claim C10: dispatching the identical ping request at two times yields two
responses that agree in every field except the timestamp inside the result:
same id, same jsonrpc marker, no error, and the same status string. -/
theorem ping_idempotent_modulo_timestamp (version : String) (fetch : FetchOracle)
    (req : Json) (now1 now2 : Int)
    (hm : jsGet req "method" = some (Json.str "ping")) :
    ∃ rid,
      handleRequest version now1 fetch req =
        (some { id := rid, jsonrpc := "2.0",
                result := some (Json.obj [("status", Json.str "ok"),
                                          ("timestamp", Json.num now1)]),
                error := none }, []) ∧
      handleRequest version now2 fetch req =
        (some { id := rid, jsonrpc := "2.0",
                result := some (Json.obj [("status", Json.str "ok"),
                                          ("timestamp", Json.num now2)]),
                error := none }, []) := by
  refine ⟨jsOrDefault (jsGet req "id") (Json.str "0"), ?_, ?_⟩ <;>
    simp [handleRequest, hm, resultResponse, pingResult]

/-- Witness for C10 at a concrete ping request and two distinct timestamps. -/
theorem ping_idempotent_modulo_timestamp_check :
    jsGet (Json.obj [("jsonrpc", Json.str "2.0"), ("id", Json.num 1),
        ("method", Json.str "ping")]) "method" = some (Json.str "ping") ∧
    (∃ rid,
      handleRequest "1.0.0" 10 noFetch (Json.obj [("jsonrpc", Json.str "2.0"),
          ("id", Json.num 1), ("method", Json.str "ping")]) =
        (some { id := rid, jsonrpc := "2.0",
                result := some (Json.obj [("status", Json.str "ok"),
                                          ("timestamp", Json.num 10)]),
                error := none }, []) ∧
      handleRequest "1.0.0" 20 noFetch (Json.obj [("jsonrpc", Json.str "2.0"),
          ("id", Json.num 1), ("method", Json.str "ping")]) =
        (some { id := rid, jsonrpc := "2.0",
                result := some (Json.obj [("status", Json.str "ok"),
                                          ("timestamp", Json.num 20)]),
                error := none }, [])) :=
  ⟨rfl, ping_idempotent_modulo_timestamp "1.0.0" noFetch _ 10 20 rfl⟩

end ChtSh
